import Mathlib

/-!
Verification of `duckdb_query.py`: a command-line tool that builds a DuckDB
initialization script for a CSV/Parquet file (local or S3) and launches an
interactive front end (native DuckDB CLI or Harlequin) on it.

The definitions below are a shallow embedding of the Python source:
  * `urlparse_scheme` models `urllib.parse.urlparse(uri).scheme` — the scheme
    extraction of CPython's `urlsplit` — INCLUDING its error behaviour: when
    the netloc contains an unbalanced `[` or `]`, `urlsplit` raises
    `ValueError("Invalid IPv6 URL")` instead of returning.  Results are
    three-valued (`PyResult`): the call returns a value, raises `ValueError`,
    or falls on a path this model does not decide (the bracketed-host
    validation `_check_bracketed_host`, whose presence varies across CPython
    patch releases, and the Unicode NFKC check `_checknetloc` for non-ASCII
    netlocs).  Where the model decides, it agrees with every CPython release
    the script can run under.
  * `is_s3_uri` models `is_s3_uri` (lines 37-48); it propagates the
    `ValueError` of `urlparse`.
  * `create_duckdb_init_script_list` / `create_duckdb_init_script` model
    `create_duckdb_init_script` (lines 59-97): the former is the Python
    `script` list given the boolean returned by the line-76 `is_s3_uri` call;
    the latter performs that call, propagating its `ValueError`, and joins the
    list with `"\n".join(script)`.
  * `resolved_use_cli`, `frontend_downgraded` model the inline front-end
    resolution in `main` (lines 117-122).
  * `main_run` models the observable behaviour of `main` after argument
    parsing (lines 114-165): the log trace, the generated script, the
    temporary-file lifecycle and the process exit status, with the
    environment (Harlequin availability, subprocess behaviour, unlink
    behaviour) passed in explicitly.  The `is_s3_uri` call at line 127 sits
    OUTSIDE the `try` block: when it raises, the `ValueError` is uncaught, no
    temporary file is created, no unlink runs, and the process dies with exit
    status 1 after emitting only the line 119-125 log records.  When URL
    parsing is on a path the model does not decide, only those observables
    that are certain regardless (the resolution, and the log records emitted
    before line 127) are reported; the lifecycle fields are `none`.
-/

/-- Python truthiness of an `Optional[str]` value: `None` and `""` are falsy. -/
def py_truthy : Option String → Bool
  | none => false
  | some s => !(s == "")

/-- Python `str.upper()` (ASCII case mapping, as used on `"csv"`/`"parquet"`). -/
def py_upper (s : String) : String := s.toUpper

/-- The outcome of a Python call in this model: it returns `val`, it raises
`ValueError`, or its behaviour is not modelled (`undecided`): the
bracketed-host validation of balanced `[`…`]` netlocs, which varies across
CPython patch releases, and the NFKC normalization check for non-ASCII
netlocs.  No theorem below asserts anything about an `undecided` run beyond
what happens before the call. -/
inductive PyResult (α : Type) where
  | ok (val : α)
  | raises
  | undecided
deriving DecidableEq, Repr

/-- `ok` extraction: `some` on a normal return, `none` otherwise. -/
def PyResult.toOption {α : Type} : PyResult α → Option α
  | PyResult.ok a => some a
  | PyResult.raises => none
  | PyResult.undecided => none

/-- A character CPython's `urlsplit` strips from the start of the URL:
`_WHATWG_C0_CONTROL_OR_SPACE`, i.e. code points `0x00`-`0x20`. -/
def c0ControlOrSpace (c : Char) : Bool := c.toNat ≤ 0x20

/-- `url.lstrip(_WHATWG_C0_CONTROL_OR_SPACE)` — CPython only left-strips. -/
def stripLeadingC0 : List Char → List Char
  | [] => []
  | c :: cs => if c0ControlOrSpace c then stripLeadingC0 cs else c :: cs

/-- `_UNSAFE_URL_BYTES_TO_REMOVE` of CPython's `urlsplit`: tab, CR, LF are
removed from the whole URL. -/
def removedUrlByte (c : Char) : Bool := c == '\t' || c == '\r' || c == '\n'

/-- A character allowed in a URI scheme (`scheme_chars` of `urllib.parse`):
ASCII letters, digits, `+`, `-`, `.`. -/
def schemeChar (c : Char) : Bool :=
  c.isAlpha || c.isDigit || c == '+' || c == '-' || c == '.'

/-- The scheme-extraction step of `urlsplit` (after stripping): the part
before the first `:` is the scheme (lower-cased) provided it is non-empty,
starts with an ASCII letter and consists of scheme characters only; otherwise
the scheme is empty and the URL is left unchanged.  Returns the scheme and the
remaining URL characters. -/
def urlsplit_scheme_rest (url : String) : String × List Char :=
  let u := (stripLeadingC0 url.data).filter (fun c => !removedUrlByte c)
  match u.findIdx? (fun c => c == ':') with
  | none => ("", u)
  | some i =>
    if i > 0 then
      match u.head? with
      | some c0 =>
        if c0.isAlpha && (u.take i).all schemeChar then
          (String.mk ((u.take i).map Char.toLower), u.drop (i + 1))
        else ("", u)
      | none => ("", u)
    else ("", u)

/-- `_splitnetloc(url, 2)`, netloc part: the characters after the leading
`//`, up to the first `/`, `?` or `#`. -/
def splitnetloc (rest : List Char) : List Char :=
  (rest.drop 2).takeWhile (fun c => !(c == '/' || c == '?' || c == '#'))

/-- `urlparse(url).scheme` with `urlsplit`'s error behaviour.  After scheme
extraction, if the remainder starts with `//` the netloc is examined:
an unbalanced `[`/`]` raises `ValueError("Invalid IPv6 URL")`; a balanced
`[`…`]` pair triggers `_check_bracketed_host`, which this model leaves
undecided (its validation differs across CPython patch releases); a
bracket-free non-ASCII netloc triggers the NFKC check of `_checknetloc`, also
left undecided; a bracket-free ASCII netloc passes every check and the scheme
is returned.  Without a `//` no netloc exists, no check can raise, and the
scheme is returned. -/
def urlparse_scheme (url : String) : PyResult String :=
  let sr := urlsplit_scheme_rest url
  if sr.2.take 2 = ['/', '/'] then
    let netloc := splitnetloc sr.2
    if (netloc.contains '[' && !netloc.contains ']')
        || (netloc.contains ']' && !netloc.contains '[') then
      PyResult.raises
    else if netloc.contains '[' && netloc.contains ']' then
      PyResult.undecided
    else if netloc.all (fun c => c.toNat ≤ 127) then
      PyResult.ok sr.1
    else
      PyResult.undecided
  else
    PyResult.ok sr.1

/-- `is_s3_uri` (src/duckdb_query.py lines 37-48):
`urlparse(uri).scheme == 's3'`; a `ValueError` raised by `urlparse`
propagates to the caller. -/
def is_s3_uri (uri : String) : PyResult Bool :=
  match urlparse_scheme uri with
  | PyResult.ok s => PyResult.ok (s == "s3")
  | PyResult.raises => PyResult.raises
  | PyResult.undecided => PyResult.undecided

/-- The spec's `SourceDescriptor.kind`. -/
inductive SourceKind
  | Local
  | ObjectStorage
deriving DecidableEq, Repr

/-- The spec's `SourceClassifier.classify`, realised in the source by
`is_s3_uri`: S3 URIs are object storage, every other accepted string is
local; the `ValueError` of `urlparse` propagates. -/
def classify (reference : String) : PyResult SourceKind :=
  match is_s3_uri reference with
  | PyResult.ok b =>
      PyResult.ok (if b then SourceKind.ObjectStorage else SourceKind.Local)
  | PyResult.raises => PyResult.raises
  | PyResult.undecided => PyResult.undecided

/-- Line 72: `read_function = "read_csv" if file_type == "csv" else "read_parquet"`. -/
def read_function (file_type : String) : String :=
  if file_type == "csv" then "read_csv" else "read_parquet"

/-- Line 85: the table-materialization statement with `file_path` interpolated
verbatim. -/
def table_stmt (file_type file_path : String) : String :=
  "CREATE OR REPLACE TABLE data AS SELECT * FROM " ++ read_function file_type
    ++ "('" ++ file_path ++ "');"

/-- Line 81: `f"CALL load_aws_credentials('{profile_name}');" if profile_name else ""`. -/
def credential_elem (profile_name : Option String) : String :=
  if py_truthy profile_name then
    "CALL load_aws_credentials('" ++ profile_name.getD "" ++ "');"
  else ""

/-- `create_duckdb_init_script` (lines 59-97) as the Python `script` list,
given the boolean `is_s3` returned by the `is_s3_uri(file_path)` call of
line 76, before the final `"\n".join`. -/
def create_duckdb_init_script_list (is_s3 : Bool) (file_path file_type : String)
    (is_cli : Bool) (profile_name : Option String) : List String :=
  let script : List String := []
  let script := if is_s3 then
      script ++ ["INSTALL aws;", "LOAD aws;", credential_elem profile_name]
    else script
  let script := script ++ [table_stmt file_type file_path]
  let script := if is_cli then script ++ [".mode duckbox", ".echo on"] else script
  let script := script ++ ["PRAGMA table_info('data');"]
  script

/-- `create_duckdb_init_script` (lines 59-97): calls `is_s3_uri(file_path)`
at line 76 — a `ValueError` raised there propagates and no script is
produced — and otherwise returns `"\n".join(script)`. -/
def create_duckdb_init_script (file_path file_type : String)
    (is_cli : Bool) (profile_name : Option String) : PyResult String :=
  match is_s3_uri file_path with
  | PyResult.ok s3 => PyResult.ok (String.intercalate "\n"
      (create_duckdb_init_script_list s3 file_path file_type is_cli profile_name))
  | PyResult.raises => PyResult.raises
  | PyResult.undecided => PyResult.undecided

/-- Log levels of the `logging` module as used by the script
(`logger.exception` logs at error level). -/
inductive LogLevel
  | debug
  | info
  | warning
  | error
deriving DecidableEq, Repr

/-- One emitted log record. -/
structure LogMsg where
  level : LogLevel
  msg : String
deriving DecidableEq, Repr

/-- The exception classes distinguished by `main`'s `except` clauses:
`subprocess.CalledProcessError`, `FileNotFoundError`, and any other
`Exception` (carrying its `str(e)`). -/
inductive PyExc
  | calledProcessError (returncode : Int)
  | fileNotFoundError
  | otherError (msg : String)
deriving DecidableEq, Repr

/-- `str(e)` for the modelled exceptions. -/
def PyExc.toText : PyExc → String
  | .calledProcessError c => "Command returned non-zero exit status " ++ toString c ++ "."
  | .fileNotFoundError => "No such file or directory"
  | .otherError m => m

/-- Observable interpreter state while the session block runs: the log trace,
whether the temporary SQL file still exists, and how many times `os.unlink`
was invoked. -/
structure PyState where
  logs : List LogMsg
  tempFileExists : Bool
  unlinkCalls : Nat
deriving Repr

/-- A Python computation: state in, `Except`-style result (normal return or a
raised exception) plus state out. -/
def PyM (α : Type) := PyState → Except PyExc α × PyState

/-- Return without side effects. -/
def pyPure {α : Type} (a : α) : PyM α := fun s => (Except.ok a, s)

/-- Sequencing: an exception in the first computation skips the second. -/
def pyBind {α β : Type} (m : PyM α) (f : α → PyM β) : PyM β := fun s =>
  match m s with
  | (Except.ok a, s1) => f a s1
  | (Except.error e, s1) => (Except.error e, s1)

/-- `m; k` sequencing. -/
def pySeq {α : Type} (m : PyM Unit) (k : PyM α) : PyM α :=
  pyBind m (fun _ => k)

/-- A `logger.<level>(msg)` call. -/
def pyLog (level : LogLevel) (msg : String) : PyM Unit := fun s =>
  (Except.ok (), { s with logs := s.logs ++ [⟨level, msg⟩] })

/-- `try body except Exception as e: handler(e)`: every modelled exception is
an `Exception`, so the handler receives whatever the body raised. -/
def pyTryExcept {α : Type} (body : PyM α) (handler : PyExc → PyM α) : PyM α := fun s =>
  match body s with
  | (Except.ok a, s1) => (Except.ok a, s1)
  | (Except.error e, s1) => handler e s1

/-- `try body except ... finally fin`: the handler runs on an exception, the
finally block runs in every case, and an exception raised by the finally block
replaces the result. -/
def pyTryExceptFinally {α : Type} (body : PyM α) (handler : PyExc → PyM α)
    (fin : PyM α) : PyM α := fun s =>
  let (r1, s1) := body s
  let (r2, s2) := match r1 with
    | Except.ok a => (Except.ok a, s1)
    | Except.error e => handler e s1
  let (rf, s3) := fin s2
  match rf with
  | Except.ok _ => (r2, s3)
  | Except.error e => (Except.error e, s3)

/-- The environment `main` runs in: whether `shutil.which('harlequin')`
succeeds, what `subprocess.run(..., check=True)` does (`none` = the subordinate
process runs and exits 0), what `os.unlink` does (`none` = deletion succeeds,
`some m` = it raises with message `m`), and the temporary file's name. -/
structure Env where
  harlequinInstalled : Bool
  subprocRaises : Option PyExc
  unlinkRaises : Option String
  tempPath : String

/-- `check_harlequin_installed` (lines 50-57): `shutil.which('harlequin') is not None`. -/
def check_harlequin_installed (env : Env) : Bool := env.harlequinInstalled

/-- `subprocess.run([...], check=True)` under the environment's behaviour. -/
def subprocess_run (env : Env) : PyM Unit := fun s =>
  match env.subprocRaises with
  | none => (Except.ok (), s)
  | some e => (Except.error e, s)

/-- `os.unlink(temp_file_path)`: always counted as attempted; on success the
file is gone, on failure an `OSError`-like exception is raised. -/
def os_unlink (env : Env) : PyM Unit := fun s =>
  let s1 := { s with unlinkCalls := s.unlinkCalls + 1 }
  match env.unlinkRaises with
  | none => (Except.ok (), { s1 with tempFileExists := false })
  | some m => (Except.error (PyExc.otherError m), s1)

/-- `args.ui` after `argparse`: `cli` or `harlequin`. -/
inductive UI
  | cli
  | harlequin
deriving DecidableEq, Repr

/-- Line 117: `use_cli = args.ui == "cli"`. -/
def use_cli_requested : UI → Bool
  | UI.cli => true
  | UI.harlequin => false

/-- The value of `use_cli` after lines 117-122 (the spec's
`FrontEndSelector.resolve`, first component).  This runs before any
`is_s3_uri` call, so it is defined for every input. -/
def resolved_use_cli (ui : UI) (harlequinInstalled : Bool) : Bool :=
  if !(use_cli_requested ui) && !harlequinInstalled then true
  else use_cli_requested ui

/-- Whether lines 119-122 downgraded the requested front end (the spec's
`FrontEndSelector.resolve`, second component). -/
def frontend_downgraded (ui : UI) (harlequinInstalled : Bool) : Bool :=
  !(use_cli_requested ui) && !harlequinInstalled

/-- The body of the `try` block, lines 137-148, given the boolean `s3` that
the line-138 `is_s3_uri` call returns (on the ok path it equals the line-127
result). -/
def try_body (env : Env) (use_cli s3 : Bool) (file_type file_path : String) : PyM Unit :=
  pySeq (pyLog LogLevel.info ("Loading " ++ py_upper file_type ++ " from "
      ++ (if s3 then "S3" else "local file") ++ ": " ++ file_path))
    (if use_cli then
      pySeq (pyLog LogLevel.info "Initializing DuckDB CLI...")
        (pySeq (subprocess_run env)
          (pyLog LogLevel.info "DuckDB CLI session completed successfully."))
    else
      pySeq (pyLog LogLevel.info "Initializing Harlequin...")
        (pySeq (subprocess_run env)
          (pyLog LogLevel.info "Harlequin session completed successfully.")))

/-- The `except` clauses, lines 150-157.  `subprocess.run` was called without
output capture, so `e.output` is `None` and no second error line is logged. -/
def except_handler : PyExc → PyM Unit
  | PyExc.calledProcessError c =>
      pyLog LogLevel.error ("Process failed with exit code " ++ toString c)
  | PyExc.fileNotFoundError =>
      pyLog LogLevel.error
        "DuckDB executable not found. Please ensure DuckDB is installed and in your PATH."
  | PyExc.otherError m =>
      pyLog LogLevel.error ("An unexpected error occurred: " ++ m)

/-- The `finally` block, lines 158-163: unlink wrapped in its own
`try/except Exception` that only logs a warning. -/
def finally_block (env : Env) : PyM Unit :=
  pyTryExcept
    (pySeq (os_unlink env)
      (pyLog LogLevel.debug ("Deleted temporary file: " ++ env.tempPath)))
    (fun e => pyLog LogLevel.warning
      ("Could not delete temporary file " ++ env.tempPath ++ ": " ++ e.toText))

/-- The log records of lines 119-125: the Harlequin fallback notices and the
two banner lines.  These are emitted before the `is_s3_uri` call of line 127,
hence on EVERY run, including ones where that call raises. -/
def banner_logs (file_type file_path : String) (ui : UI) (env : Env) : List LogMsg :=
  (if !(use_cli_requested ui) && !(check_harlequin_installed env) then
    [⟨LogLevel.error,
      "Harlequin is not installed. Please install it using: pip install harlequin"⟩,
     ⟨LogLevel.info, "Falling back to native DuckDB CLI..."⟩]
  else [])
  ++ [⟨LogLevel.info,
        "Initializing query for " ++ py_upper file_type ++ " file: " ++ file_path⟩,
      ⟨LogLevel.info,
        "Using " ++ (if resolved_use_cli ui (check_harlequin_installed env) then
          "DuckDB CLI" else "Harlequin") ++ " interface"⟩]

/-- The log records between the line-127 parse and the `try` block, given the
boolean `s3` returned by `is_s3_uri(file_path)`: the default-credentials
warning (line 128), the `logger.info` emitted inside
`create_duckdb_init_script` (line 77), and the debug line after the temporary
file is written (line 135). -/
def post_parse_logs (s3 : Bool) (profile_name : Option String) (env : Env) : List LogMsg :=
  (if s3 && !(py_truthy profile_name) then
    [⟨LogLevel.warning,
      "S3 URI detected but no AWS profile specified. Using default credentials."⟩]
  else [])
  ++ (if s3 then
      [⟨LogLevel.info, "S3 URI detected. Adding AWS extension commands."⟩]
    else [])
  ++ [⟨LogLevel.debug, "Created temporary SQL file: " ++ env.tempPath⟩]

/-- The observable outcome of one run of `main`.  `script` is the text written
to the temporary file when the model determines one was written, `none`
otherwise.  The lifecycle fields are `none` when the run's tail is not
modelled (undecided URL parse); `logs` is then the guaranteed prefix of the
real trace (the records of lines 119-125). -/
structure MainResult where
  resolvedCli : Bool
  script : Option String
  logs : List LogMsg
  tempFileExists : Option Bool
  unlinkCalls : Option Nat
  exitCode : Option Nat
deriving Repr

/-- Run `main` (lines 114-165).  The front end is resolved first
(lines 117-122).  Then `is_s3_uri(file_path)` is evaluated at line 127
OUTSIDE the `try` block: if it raises, the `ValueError` is uncaught — no
warning, no script, no temporary file, no unlink — and the process dies with
exit status 1 (Python's status for an unhandled exception).  If it returns,
the script is built with the RESOLVED `use_cli` (line 130), the temporary
file exists when the `try` block is entered, the closing `logger.info` of
line 165 runs only if no exception escaped the `try/except/finally`, and the
process exits 0 when `main` returns normally. -/
def main_run (file_path file_type : String) (profile_name : Option String)
    (ui : UI) (env : Env) : MainResult :=
  let use_cli := resolved_use_cli ui (check_harlequin_installed env)
  match is_s3_uri file_path with
  | PyResult.ok s3 =>
    let (r, s) := pyTryExceptFinally (try_body env use_cli s3 file_type file_path)
      except_handler (finally_block env)
      ⟨banner_logs file_type file_path ui env ++ post_parse_logs s3 profile_name env,
        true, 0⟩
    { resolvedCli := use_cli
      script := some (String.intercalate "\n"
        (create_duckdb_init_script_list s3 file_path file_type use_cli profile_name))
      logs := s.logs ++ (match r with
        | Except.ok _ => [⟨LogLevel.info, "Session ended. To query again, rerun the command."⟩]
        | Except.error _ => [])
      tempFileExists := some s.tempFileExists
      unlinkCalls := some s.unlinkCalls
      exitCode := some (match r with | Except.ok _ => 0 | Except.error _ => 1) }
  | PyResult.raises =>
    { resolvedCli := use_cli
      script := none
      logs := banner_logs file_type file_path ui env
      tempFileExists := some false
      unlinkCalls := some 0
      exitCode := some 1 }
  | PyResult.undecided =>
    { resolvedCli := use_cli
      script := none
      logs := banner_logs file_type file_path ui env
      tempFileExists := none
      unlinkCalls := none
      exitCode := none }

example : is_s3_uri "s3://bucket/key.csv" = PyResult.ok true := by decide
example : is_s3_uri "/data/file.csv" = PyResult.ok false := by decide
example : is_s3_uri "not a uri" = PyResult.ok false := by decide
example : is_s3_uri "" = PyResult.ok false := by decide
example : is_s3_uri "S3://bucket/key.csv" = PyResult.ok true := by decide
example : is_s3_uri "s3:" = PyResult.ok true := by decide
example : is_s3_uri "s3://[" = PyResult.raises := by decide
example : is_s3_uri "s3://[abc" = PyResult.raises := by decide
example : is_s3_uri "s3://]x" = PyResult.raises := by decide
example : is_s3_uri "//[" = PyResult.raises := by decide
example : is_s3_uri "x:y//[" = PyResult.ok false := by decide
example : is_s3_uri "s3://[::1]/k" = PyResult.undecided := by decide
example :
    create_duckdb_init_script "s3://b/k.csv" "csv" true none =
      PyResult.ok "INSTALL aws;\nLOAD aws;\n\nCREATE OR REPLACE TABLE data AS SELECT * FROM read_csv('s3://b/k.csv');\n.mode duckbox\n.echo on\nPRAGMA table_info('data');" := by
  decide
example : create_duckdb_init_script "s3://[" "csv" true none = PyResult.raises := by
  decide

/-- The tail of a separator-join: `sepJoin s [a, b] = s ++ a ++ (s ++ b ++ "")`. -/
def sepJoin (s : String) : List String → String
  | [] => ""
  | a :: as => s ++ a ++ sepJoin s as

/-- The error/info messages produced by the `except` clauses (lines 150-157). -/
def handler_msg : PyExc → String
  | PyExc.calledProcessError c => "Process failed with exit code " ++ toString c
  | PyExc.fileNotFoundError =>
      "DuckDB executable not found. Please ensure DuckDB is installed and in your PATH."
  | PyExc.otherError m => "An unexpected error occurred: " ++ m

/-- The log records produced by the `try/except/finally` of lines 137-163. -/
def session_logs (env : Env) (use_cli s3 : Bool) (ft fp : String) : List LogMsg :=
  [⟨LogLevel.info, "Loading " ++ py_upper ft ++ " from "
      ++ (if s3 then "S3" else "local file") ++ ": " ++ fp⟩,
   ⟨LogLevel.info, if use_cli then "Initializing DuckDB CLI..."
      else "Initializing Harlequin..."⟩]
  ++ (match env.subprocRaises with
    | none => [⟨LogLevel.info, if use_cli then "DuckDB CLI session completed successfully."
        else "Harlequin session completed successfully."⟩]
    | some e => [⟨LogLevel.error, handler_msg e⟩])
  ++ (match env.unlinkRaises with
    | none => [⟨LogLevel.debug, "Deleted temporary file: " ++ env.tempPath⟩]
    | some m => [⟨LogLevel.warning,
        "Could not delete temporary file " ++ env.tempPath ++ ": " ++ m⟩])

/-! ### Helper lemmas -/

theorem intercalate_go_eq (s : String) (l : List String) :
    ∀ acc : String, String.intercalate.go acc s l = acc ++ sepJoin s l := by
  induction l with
  | nil => intro acc; simp [String.intercalate.go, sepJoin, String.append_empty]
  | cons a as ih =>
    intro acc
    simp only [String.intercalate.go, sepJoin, ih, String.append_assoc]

theorem intercalate_cons (s a : String) (l : List String) :
    String.intercalate s (a :: l) = a ++ sepJoin s l := by
  simp only [String.intercalate, intercalate_go_eq]

theorem string_ne_of_data_ne {a b : String} (h : a.data ≠ b.data) : a ≠ b :=
  fun he => h (congrArg String.data he)

theorem ne_of_data_head {a b : String} {c d : Char} {la lb : List Char}
    (ha : a.data = c :: la) (hb : b.data = d :: lb) (h : c ≠ d) : a ≠ b := by
  apply string_ne_of_data_ne
  rw [ha, hb]
  intro he
  exact h (List.cons.injEq .. ▸ he).1

theorem ne_of_data_head2 {a b : String} {c c2 d2 : Char} {la lb : List Char}
    (ha : a.data = c :: c2 :: la) (hb : b.data = c :: d2 :: lb) (h : c2 ≠ d2) : a ≠ b := by
  apply string_ne_of_data_ne
  rw [ha, hb]
  intro he
  apply h
  have := (List.cons.injEq .. ▸ he).2
  exact (List.cons.injEq .. ▸ this).1

theorem ne_of_length_ne {a b : String} (h : a.length ≠ b.length) : a ≠ b :=
  fun he => h (congrArg String.length he)

/-- Length of a credential-loading statement: 30 plus the profile name. -/
theorem cred_stmt_length (p : String) :
    ("CALL load_aws_credentials('" ++ p ++ "');").length = 30 + p.length := by
  rw [String.length_append, String.length_append]
  have h1 : "CALL load_aws_credentials('".length = 27 := rfl
  have h2 : "');".length = 3 := rfl
  omega

/-- Any string shorter than 30 characters is not a credential-loading statement. -/
theorem short_ne_cred {x : String} (hx : x.length < 30) (p : String) :
    x ≠ "CALL load_aws_credentials('" ++ p ++ "');" := by
  apply ne_of_length_ne
  rw [cred_stmt_length]
  omega

/-- The first two characters of a credential-loading statement are `CA`. -/
theorem cred_stmt_data (p : String) :
    ∃ l, ("CALL load_aws_credentials('" ++ p ++ "');").data = 'C' :: 'A' :: l := by
  refine ⟨"LL load_aws_credentials('".data ++ p.data ++ "');".data, ?_⟩
  rw [String.data_append, String.data_append]
  rw [show "CALL load_aws_credentials('".data
      = 'C' :: 'A' :: "LL load_aws_credentials('".data from rfl]
  simp

/-- The first two characters of a table-materialization statement are `CR`,
whatever the file type and path. -/
theorem table_stmt_data (ft fp : String) :
    ∃ l, (table_stmt ft fp).data = 'C' :: 'R' :: l := by
  refine ⟨"EATE OR REPLACE TABLE data AS SELECT * FROM ".data
    ++ (read_function ft).data ++ "('".data ++ fp.data ++ "');".data, ?_⟩
  simp [table_stmt, String.data_append]

/-- A table-materialization statement is never a credential-loading statement. -/
theorem table_ne_cred (ft fp p : String) :
    table_stmt ft fp ≠ "CALL load_aws_credentials('" ++ p ++ "');" := by
  obtain ⟨l1, h1⟩ := table_stmt_data ft fp
  obtain ⟨l2, h2⟩ := cred_stmt_data p
  exact ne_of_data_head2 h1 h2 (by decide)

/-- A string shorter than 30 characters that is non-empty is never the third
`script` element produced for S3 sources (that element is either a
credential-loading statement or the empty string). -/
theorem short_ne_cred_elem {x : String} (hx : x.length < 30) (hne : x ≠ "")
    (pr : Option String) : x ≠ credential_elem pr := by
  unfold credential_elem
  cases h : py_truthy pr
  · simpa using hne
  · simpa using short_ne_cred hx (pr.getD "")

/-- `.mode duckbox` is never a table-materialization statement. -/
theorem mode_ne_table (ft fp : String) : ".mode duckbox" ≠ table_stmt ft fp := by
  obtain ⟨l, h⟩ := table_stmt_data ft fp
  exact ne_of_data_head (show (".mode duckbox").data = '.' :: "mode duckbox".data from rfl)
    h (by decide)

/-- `.echo on` is never a table-materialization statement. -/
theorem echo_ne_table (ft fp : String) : ".echo on" ≠ table_stmt ft fp := by
  obtain ⟨l, h⟩ := table_stmt_data ft fp
  exact ne_of_data_head (show (".echo on").data = '.' :: "echo on".data from rfl)
    h (by decide)

/-- The cleanup-failure warning text never coincides with the
default-credentials warning text. -/
theorem cleanup_msg_ne (tp m : String) :
    ("Could not delete temporary file " ++ tp ++ ": " ++ m) ≠
      "S3 URI detected but no AWS profile specified. Using default credentials." := by
  have h1 : ∃ l, ("Could not delete temporary file " ++ tp ++ ": " ++ m).data
      = 'C' :: l := by
    refine ⟨"ould not delete temporary file ".data ++ tp.data ++ ": ".data ++ m.data, ?_⟩
    simp [String.data_append]
  obtain ⟨l, h⟩ := h1
  exact ne_of_data_head h
    (show ("S3 URI detected but no AWS profile specified. Using default credentials.").data
      = 'S' :: ("3 URI detected but no AWS profile specified. Using default credentials.").data
      from rfl) (by decide)

/-- The `script` list built by `create_duckdb_init_script`, decomposed into
the five ordered segments. -/
theorem create_script_list_decomp (s3 : Bool) (fp ft : String) (cli : Bool)
    (pr : Option String) :
    create_duckdb_init_script_list s3 fp ft cli pr =
      (if s3 then ["INSTALL aws;", "LOAD aws;", credential_elem pr] else [])
      ++ [table_stmt ft fp]
      ++ (if cli then [".mode duckbox", ".echo on"] else [])
      ++ ["PRAGMA table_info('data');"] := by
  simp only [create_duckdb_init_script_list]
  cases s3 <;> cases cli <;> simp

/-- Evaluation of the session block: it always returns normally, the unlink is
attempted exactly once on every path, and the temporary file survives exactly
when the unlink raised. -/
theorem session_eval (env : Env) (use_cli s3 : Bool) (ft fp : String) (L : List LogMsg) :
    pyTryExceptFinally (try_body env use_cli s3 ft fp) except_handler (finally_block env)
      ⟨L, true, 0⟩ =
    (Except.ok (), ⟨L ++ session_logs env use_cli s3 ft fp, env.unlinkRaises.isSome, 1⟩) := by
  rcases env with ⟨hi, sp, uf, tp⟩
  rcases sp with _ | e
  · cases use_cli <;> rcases uf with _ | m <;>
      simp [pyTryExceptFinally, pyTryExcept, try_body, except_handler, finally_block,
        os_unlink, subprocess_run, pySeq, pyBind, pyLog, pyPure, session_logs,
        handler_msg, PyExc.toText, List.append_assoc]
  · cases e <;> cases use_cli <;> rcases uf with _ | m <;>
      simp [pyTryExceptFinally, pyTryExcept, try_body, except_handler, finally_block,
        os_unlink, subprocess_run, pySeq, pyBind, pyLog, pyPure, session_logs,
        handler_msg, PyExc.toText, List.append_assoc]

/-- Full evaluation of one run of `main` whose URL parse returns. -/
theorem main_run_eval (fp ft : String) (pr : Option String) (ui : UI) (env : Env)
    (s3 : Bool) (h : is_s3_uri fp = PyResult.ok s3) :
    main_run fp ft pr ui env =
      { resolvedCli := resolved_use_cli ui env.harlequinInstalled
        script := some (String.intercalate "\n" (create_duckdb_init_script_list s3 fp ft
          (resolved_use_cli ui env.harlequinInstalled) pr))
        logs := banner_logs ft fp ui env ++ post_parse_logs s3 pr env
          ++ session_logs env (resolved_use_cli ui env.harlequinInstalled) s3 ft fp
          ++ [⟨LogLevel.info, "Session ended. To query again, rerun the command."⟩]
        tempFileExists := some env.unlinkRaises.isSome
        unlinkCalls := some 1
        exitCode := some 0 } := by
  simp only [main_run, check_harlequin_installed, h, session_eval, List.append_assoc]

/-- Full evaluation of one run of `main` whose URL parse raises `ValueError`:
the uncaught exception at line 127 stops the run after the banner records. -/
theorem main_run_raises_eval (fp ft : String) (pr : Option String) (ui : UI) (env : Env)
    (h : is_s3_uri fp = PyResult.raises) :
    main_run fp ft pr ui env =
      { resolvedCli := resolved_use_cli ui env.harlequinInstalled
        script := none
        logs := banner_logs ft fp ui env
        tempFileExists := some false
        unlinkCalls := some 0
        exitCode := some 1 } := by
  simp only [main_run, check_harlequin_installed, h]

/-- Evaluation of one run of `main` whose URL parse is not decided by the
model: only the pre-parse observables are reported. -/
theorem main_run_undecided_eval (fp ft : String) (pr : Option String) (ui : UI)
    (env : Env) (h : is_s3_uri fp = PyResult.undecided) :
    main_run fp ft pr ui env =
      { resolvedCli := resolved_use_cli ui env.harlequinInstalled
        script := none
        logs := banner_logs ft fp ui env
        tempFileExists := none
        unlinkCalls := none
        exitCode := none } := by
  simp only [main_run, check_harlequin_installed, h]

/-- Both Harlequin-fallback records (lines 120-121) appear in the log trace of
every downgraded run, whatever the URL parse outcome: they are emitted before
the line-127 parse. -/
theorem fallback_logs_mem (fp ft tp : String) (pr : Option String)
    (sp : Option PyExc) (uf : Option String) :
    (⟨LogLevel.error,
      "Harlequin is not installed. Please install it using: pip install harlequin"⟩ : LogMsg)
      ∈ (main_run fp ft pr UI.harlequin ⟨false, sp, uf, tp⟩).logs ∧
    (⟨LogLevel.info, "Falling back to native DuckDB CLI..."⟩ : LogMsg)
      ∈ (main_run fp ft pr UI.harlequin ⟨false, sp, uf, tp⟩).logs := by
  rcases hpv : is_s3_uri fp with s3 | _ | _
  · rw [main_run_eval fp ft pr UI.harlequin ⟨false, sp, uf, tp⟩ s3 hpv]
    constructor <;> simp [banner_logs, use_cli_requested, check_harlequin_installed]
  · rw [main_run_raises_eval fp ft pr UI.harlequin ⟨false, sp, uf, tp⟩ hpv]
    constructor <;> simp [banner_logs, use_cli_requested, check_harlequin_installed]
  · rw [main_run_undecided_eval fp ft pr UI.harlequin ⟨false, sp, uf, tp⟩ hpv]
    constructor <;> simp [banner_logs, use_cli_requested, check_harlequin_installed]

/-! ### Claims -/

/-- C1 counterexample: with a Local source and a profile given
(`file_path = "/data/file.csv"`, `profile_name = "work"`), the claim requires a
credential-loading statement ("present iff a profile is given"), yet the
builder returns a script containing no `CALL load_aws_credentials` statement
at all — the full output is listed. -/
theorem claim_C1_counterexample :
    py_truthy (some "work") = true ∧
    classify "/data/file.csv" = PyResult.ok SourceKind.Local ∧
    create_duckdb_init_script "/data/file.csv" "csv" true (some "work") =
      PyResult.ok "CREATE OR REPLACE TABLE data AS SELECT * FROM read_csv('/data/file.csv');\n.mode duckbox\n.echo on\nPRAGMA table_info('data');" := by
  decide

/-- C1 (amended): for every input whose file path the URL parser accepts
(on a path with an unbalanced bracket in its netloc the builder propagates
`ValueError` and yields no script), the statements of the script occur in the
fixed order extension setup (present iff the source is ObjectStorage), then
the credential-loading statement (present iff the source is ObjectStorage AND
a non-empty profile is given; an empty placeholder element takes its slot for
ObjectStorage without a profile), then the table-load statement, then the
presentation statements (present iff the resolved front end is the CLI), then
the introspection statement, which is always the last element. -/
theorem claim_C1_statement_order (fp ft : String) (cli : Bool) (pr : Option String)
    (s3 : Bool) (h : is_s3_uri fp = PyResult.ok s3) :
    create_duckdb_init_script fp ft cli pr =
      PyResult.ok (String.intercalate "\n"
        (create_duckdb_init_script_list s3 fp ft cli pr)) ∧
    create_duckdb_init_script_list s3 fp ft cli pr =
      (if s3 then ["INSTALL aws;", "LOAD aws;"] else [])
      ++ (if s3 && py_truthy pr then
            ["CALL load_aws_credentials('" ++ pr.getD "" ++ "');"]
          else if s3 then [""] else [])
      ++ [table_stmt ft fp]
      ++ (if cli then [".mode duckbox", ".echo on"] else [])
      ++ ["PRAGMA table_info('data');"] ∧
    (create_duckdb_init_script_list s3 fp ft cli pr).getLast? =
        some "PRAGMA table_info('data');" := by
  refine ⟨by simp [create_duckdb_init_script, h], ?_, ?_⟩
  · rw [create_script_list_decomp]
    cases s3 <;> cases hp : py_truthy pr <;> simp [credential_elem, hp]
  · rw [create_script_list_decomp]
    exact List.getLast?_concat _

/-- C1 witness: the amended ordering theorem applied at a concrete accepted
input; the introspection statement is last. -/
theorem claim_C1_order_witness :
    (create_duckdb_init_script_list true "s3://bucket/key.csv" "csv" true
      (some "work")).getLast? = some "PRAGMA table_info('data');" :=
  (claim_C1_statement_order "s3://bucket/key.csv" "csv" true (some "work")
    true (by decide)).2.2

/-- C2 counterexample: classification is NOT a total function that raises no
error: `is_s3_uri("s3://[")` and the schemeless `is_s3_uri("//[")` raise
`ValueError("Invalid IPv6 URL")` from `urlparse` instead of classifying the
malformed string as Local. -/
theorem claim_C2_counterexample :
    is_s3_uri "s3://[" = PyResult.raises ∧
    is_s3_uri "//[" = PyResult.raises ∧
    classify "s3://[" = PyResult.raises := by
  decide

/-- C2 (amended): classification is pure and deterministic but not total:
every string whose parsed URI scheme is `s3` is classified ObjectStorage,
every other string the parser ACCEPTS (empty, schemeless, malformed-but-
parseable included) is classified Local, and a string whose netloc carries an
unbalanced bracket makes the classifier raise `ValueError` instead. -/
theorem claim_C2_classifier (s : String) :
    (classify s = PyResult.ok SourceKind.ObjectStorage ↔
      urlparse_scheme s = PyResult.ok "s3") ∧
    (classify s = PyResult.raises ↔ urlparse_scheme s = PyResult.raises) ∧
    classify "s3://bucket/key.csv" = PyResult.ok SourceKind.ObjectStorage ∧
    classify "/data/file.csv" = PyResult.ok SourceKind.Local ∧
    classify "" = PyResult.ok SourceKind.Local ∧
    classify "not a uri" = PyResult.ok SourceKind.Local := by
  refine ⟨?_, ?_, by decide, by decide, by decide, by decide⟩
  · rcases hu : urlparse_scheme s with sc | _ | _ <;>
      simp [classify, is_s3_uri, hu]
  · rcases hu : urlparse_scheme s with sc | _ | _ <;>
      simp [classify, is_s3_uri, hu]

/-- C3: on every exit path of a session — and a session starts exactly when
the line-127 URL parse returns — `os.unlink` runs exactly once, whether the
subordinate process succeeded, exited non-zero, was missing, or raised any
other exception; when it succeeds the transient script file is gone; when the
deletion itself fails, only a warning is logged and the session outcome
(exit status, closing log line) is unchanged.  (On the pre-session
`ValueError` path no transient file is ever created, so there is nothing to
delete.) -/
theorem claim_C3_cleanup_always (fp ft tp m : String) (pr : Option String)
    (ui : UI) (hi : Bool) (sp : Option PyExc) (s3 : Bool)
    (h : is_s3_uri fp = PyResult.ok s3) :
    (main_run fp ft pr ui ⟨hi, sp, none, tp⟩).unlinkCalls = some 1 ∧
    (main_run fp ft pr ui ⟨hi, sp, none, tp⟩).tempFileExists = some false ∧
    (main_run fp ft pr ui ⟨hi, sp, some m, tp⟩).unlinkCalls = some 1 ∧
    (⟨LogLevel.warning, "Could not delete temporary file " ++ tp ++ ": " ++ m⟩ : LogMsg)
      ∈ (main_run fp ft pr ui ⟨hi, sp, some m, tp⟩).logs ∧
    (main_run fp ft pr ui ⟨hi, sp, some m, tp⟩).exitCode =
      (main_run fp ft pr ui ⟨hi, sp, none, tp⟩).exitCode ∧
    (⟨LogLevel.info, "Session ended. To query again, rerun the command."⟩ : LogMsg)
      ∈ (main_run fp ft pr ui ⟨hi, sp, some m, tp⟩).logs := by
  simp [main_run_eval fp ft pr ui ⟨hi, sp, none, tp⟩ s3 h,
    main_run_eval fp ft pr ui ⟨hi, sp, some m, tp⟩ s3 h, session_logs]

/-- C3 witness: cleanup at concrete inputs — the unlink runs once, and a
failing unlink yields the warning record. -/
theorem claim_C3_witness :
    (main_run "/data/file.csv" "csv" none UI.cli
      ⟨true, none, none, "/tmp/c3.sql"⟩).unlinkCalls = some 1 ∧
    (⟨LogLevel.warning, "Could not delete temporary file " ++ "/tmp/c3.sql"
        ++ ": " ++ "Permission denied"⟩ : LogMsg)
      ∈ (main_run "/data/file.csv" "csv" none UI.cli
        ⟨true, none, some "Permission denied", "/tmp/c3.sql"⟩).logs :=
  ⟨(claim_C3_cleanup_always "/data/file.csv" "csv" "/tmp/c3.sql" "Permission denied"
      none UI.cli true none false (by decide)).1,
    (claim_C3_cleanup_always "/data/file.csv" "csv" "/tmp/c3.sql" "Permission denied"
      none UI.cli true none false (by decide)).2.2.2.1⟩

/-- C4 counterexample: with the subordinate DuckDB process exiting non-zero
(exit code 1), `main` catches the `CalledProcessError`, logs it, and the
process still exits with status 0 — not the non-zero status the claim
requires. -/
theorem claim_C4_counterexample :
    (main_run "/data/file.csv" "csv" none UI.cli
      ⟨true, some (PyExc.calledProcessError 1), none, "/tmp/init.sql"⟩).exitCode
      = some 0 ∧
    (⟨LogLevel.error, "Process failed with exit code 1"⟩ : LogMsg)
      ∈ (main_run "/data/file.csv" "csv" none UI.cli
        ⟨true, some (PyExc.calledProcessError 1), none, "/tmp/init.sql"⟩).logs := by
  decide

/-- C4 (amended): whenever the line-127 URL parse returns, the process exits
with status 0 — both when the interactive session completes AND when the
subordinate front-end process fails to start or itself exits non-zero, since
those failures are caught and surfaced only as logged error-level messages.
The sole nonzero exit in the modelled scope is the uncaught `ValueError`
raised by `urlparse` on a bracket-unbalanced file path, which terminates the
process with status 1 before any session starts. -/
theorem claim_C4_exit_status (fp ft : String) (pr : Option String)
    (ui : UI) (env : Env) :
    (∀ s3 : Bool, is_s3_uri fp = PyResult.ok s3 →
      (main_run fp ft pr ui env).exitCode = some 0) ∧
    (is_s3_uri fp = PyResult.raises →
      (main_run fp ft pr ui env).exitCode = some 1 ∧
      (main_run fp ft pr ui env).script = none ∧
      (main_run fp ft pr ui env).unlinkCalls = some 0) ∧
    (∀ s3 : Bool, ∀ c : Int, is_s3_uri fp = PyResult.ok s3 →
      (⟨LogLevel.error, "Process failed with exit code " ++ toString c⟩ : LogMsg)
        ∈ (main_run fp ft pr ui
          { env with subprocRaises := some (PyExc.calledProcessError c) }).logs) ∧
    (∀ s3 : Bool, is_s3_uri fp = PyResult.ok s3 →
      (⟨LogLevel.error,
        "DuckDB executable not found. Please ensure DuckDB is installed and in your PATH."⟩ : LogMsg)
        ∈ (main_run fp ft pr ui
          { env with subprocRaises := some PyExc.fileNotFoundError }).logs) := by
  refine ⟨?_, ?_, ?_, ?_⟩
  · intro s3 h
    simp [main_run_eval fp ft pr ui env s3 h]
  · intro h
    simp [main_run_raises_eval fp ft pr ui env h]
  · intro s3 c h
    simp [main_run_eval fp ft pr ui
      { env with subprocRaises := some (PyExc.calledProcessError c) } s3 h,
      session_logs, handler_msg]
  · intro s3 h
    simp [main_run_eval fp ft pr ui
      { env with subprocRaises := some PyExc.fileNotFoundError } s3 h,
      session_logs, handler_msg]

/-- C4 witness: exit status 0 at a concrete run with a completed session, and
exit status 1 at the concrete bracket-unbalanced path where the parse raises. -/
theorem claim_C4_witness :
    (main_run "/data/file.csv" "csv" none UI.cli
      ⟨true, none, none, "/tmp/c4.sql"⟩).exitCode = some 0 ∧
    (main_run "s3://[" "csv" none UI.cli
      ⟨true, none, none, "/tmp/c4.sql"⟩).exitCode = some 1 :=
  ⟨(claim_C4_exit_status "/data/file.csv" "csv" none UI.cli
      ⟨true, none, none, "/tmp/c4.sql"⟩).1 false (by decide),
    ((claim_C4_exit_status "s3://[" "csv" none UI.cli
      ⟨true, none, none, "/tmp/c4.sql"⟩).2.1 (by decide)).1⟩

/-- C5 counterexample: requesting Harlequin while it is not installed does
downgrade to the CLI, but the run emits NO warning-level record at all — the
fallback is announced at error and info level, not the warning level the
claim requires. -/
theorem claim_C5_counterexample :
    frontend_downgraded UI.harlequin false = true ∧
    (main_run "/data/file.csv" "csv" none UI.harlequin
      ⟨false, none, none, "/tmp/init.sql"⟩).resolvedCli = true ∧
    (main_run "/data/file.csv" "csv" none UI.harlequin
      ⟨false, none, none, "/tmp/init.sql"⟩).logs.all
        (fun r => !(r.level == LogLevel.warning)) = true := by
  decide

/-- C5 (amended): front-end resolution: CLI requested resolves to CLI with no
downgrade unconditionally; Harlequin requested resolves to Harlequin when the
executable is discoverable; Harlequin requested but not discoverable resolves
to the CLI with downgraded = true, and the fallback is announced by an
error-level notice plus an info-level notice (not a warning-level one). -/
theorem claim_C5_frontend_resolution (fp ft tp : String) (pr : Option String)
    (sp : Option PyExc) (uf : Option String) (hi : Bool) :
    (resolved_use_cli UI.cli hi = true ∧ frontend_downgraded UI.cli hi = false) ∧
    (resolved_use_cli UI.harlequin true = false ∧
      frontend_downgraded UI.harlequin true = false) ∧
    (resolved_use_cli UI.harlequin false = true ∧
      frontend_downgraded UI.harlequin false = true) ∧
    (⟨LogLevel.error,
      "Harlequin is not installed. Please install it using: pip install harlequin"⟩ : LogMsg)
      ∈ (main_run fp ft pr UI.harlequin ⟨false, sp, uf, tp⟩).logs ∧
    (⟨LogLevel.info, "Falling back to native DuckDB CLI..."⟩ : LogMsg)
      ∈ (main_run fp ft pr UI.harlequin ⟨false, sp, uf, tp⟩).logs :=
  ⟨⟨rfl, by cases hi <;> rfl⟩, ⟨rfl, rfl⟩, ⟨rfl, rfl⟩,
    (fallback_logs_mem fp ft tp pr sp uf).1,
    (fallback_logs_mem fp ft tp pr sp uf).2⟩

/-- C5 witness: the info-level fallback notice in a concrete downgraded run. -/
theorem claim_C5_witness :
    (⟨LogLevel.info, "Falling back to native DuckDB CLI..."⟩ : LogMsg)
      ∈ (main_run "/data/file.csv" "csv" none UI.harlequin
        ⟨false, none, none, "/tmp/c5.sql"⟩).logs :=
  (claim_C5_frontend_resolution "/data/file.csv" "csv" "/tmp/c5.sql"
    none none none true).2.2.2.2

/-- C6: for every input whose URL parse returns, the script builder is invoked
with the RESOLVED front-end choice, not the requested one: when Harlequin is
requested but unavailable, the resolution is the CLI and the script written is
the CLI script, which contains the presentation statements; in general the
script written always equals the builder's output at the resolved choice, and
the presentation statements are present exactly when the resolved choice is
the CLI. -/
theorem claim_C6_resolved_choice (fp ft tp : String) (pr : Option String)
    (sp : Option PyExc) (uf : Option String) (s3 : Bool)
    (h : is_s3_uri fp = PyResult.ok s3) :
    (main_run fp ft pr UI.harlequin ⟨false, sp, uf, tp⟩).resolvedCli = true ∧
    (main_run fp ft pr UI.harlequin ⟨false, sp, uf, tp⟩).script =
      some (String.intercalate "\n"
        (create_duckdb_init_script_list s3 fp ft true pr)) ∧
    (∀ ui : UI, ∀ env : Env, (main_run fp ft pr ui env).script =
      PyResult.toOption (create_duckdb_init_script fp ft
        (main_run fp ft pr ui env).resolvedCli pr)) ∧
    ".mode duckbox" ∈ create_duckdb_init_script_list s3 fp ft true pr ∧
    ".echo on" ∈ create_duckdb_init_script_list s3 fp ft true pr ∧
    ".mode duckbox" ∉ create_duckdb_init_script_list s3 fp ft false pr ∧
    ".echo on" ∉ create_duckdb_init_script_list s3 fp ft false pr := by
  refine ⟨?_, ?_, ?_, ?_, ?_, ?_, ?_⟩
  · rw [main_run_eval fp ft pr UI.harlequin ⟨false, sp, uf, tp⟩ s3 h]
    simp [resolved_use_cli, use_cli_requested]
  · rw [main_run_eval fp ft pr UI.harlequin ⟨false, sp, uf, tp⟩ s3 h]
    simp [resolved_use_cli, use_cli_requested]
  · intro ui env
    rw [main_run_eval fp ft pr ui env s3 h]
    simp [create_duckdb_init_script, h, PyResult.toOption]
  · rw [create_script_list_decomp]; cases s3 <;> simp
  · rw [create_script_list_decomp]; cases s3 <;> simp
  · rw [create_script_list_decomp]; cases s3 <;>
      simp [@short_ne_cred_elem ".mode duckbox" (by decide) (by decide) pr,
        mode_ne_table ft fp]
  · rw [create_script_list_decomp]; cases s3 <;>
      simp [@short_ne_cred_elem ".echo on" (by decide) (by decide) pr,
        echo_ne_table ft fp]

/-- C6 witness: presentation statements present for the resolved CLI script
and absent for the Harlequin script, at a concrete input. -/
theorem claim_C6_witness :
    ".mode duckbox" ∈ create_duckdb_init_script_list false "/data/file.csv" "csv" true none ∧
    ".mode duckbox" ∉ create_duckdb_init_script_list false "/data/file.csv" "csv" false none :=
  ⟨(claim_C6_resolved_choice "/data/file.csv" "csv" "/tmp/c6.sql" none none none
      false (by decide)).2.2.2.1,
    (claim_C6_resolved_choice "/data/file.csv" "csv" "/tmp/c6.sql" none none none
      false (by decide)).2.2.2.2.2.1⟩

/-- C7: for every S3 source the parser accepts, given with no credential
profile, no statement of the generated script is a credential-loading
statement, and the run logs exactly one warning with the default-credentials
message. -/
theorem claim_C7_default_credentials (fp ft tp : String) (ui : UI) (hi : Bool)
    (sp : Option PyExc) (uf : Option String)
    (h : is_s3_uri fp = PyResult.ok true) :
    (∀ p : String, ("CALL load_aws_credentials('" ++ p ++ "');")
      ∉ create_duckdb_init_script_list true fp ft (resolved_use_cli ui hi) none) ∧
    (main_run fp ft none ui ⟨hi, sp, uf, tp⟩).logs.countP
      (fun r => r.level == LogLevel.warning && r.msg ==
        "S3 URI detected but no AWS profile specified. Using default credentials.") = 1 := by
  constructor
  · intro p
    have hI := (short_ne_cred (show (String.length "INSTALL aws;") < 30 by decide) p).symm
    have hL := (short_ne_cred (show (String.length "LOAD aws;") < 30 by decide) p).symm
    have hE := (short_ne_cred (show (String.length "") < 30 by decide) p).symm
    have hM := (short_ne_cred (show (String.length ".mode duckbox") < 30 by decide) p).symm
    have hO := (short_ne_cred (show (String.length ".echo on") < 30 by decide) p).symm
    have hP := (short_ne_cred
      (show (String.length "PRAGMA table_info('data');") < 30 by decide) p).symm
    have hT := (table_ne_cred ft fp p).symm
    rw [create_script_list_decomp]
    cases hcli : resolved_use_cli ui hi <;>
      simp [credential_elem, py_truthy, hI, hL, hE, hM, hO, hP, hT]
  · have hcl : ∀ m : String, (("Could not delete temporary file " ++ tp ++ ": " ++ m) ==
        "S3 URI detected but no AWS profile specified. Using default credentials.") = false :=
      fun m => beq_eq_false_iff_ne.mpr (cleanup_msg_ne tp m)
    rw [main_run_eval fp ft none ui ⟨hi, sp, uf, tp⟩ true h]
    rcases sp with _ | e <;> rcases uf with _ | m <;> cases ui <;> cases hi <;>
      simp [banner_logs, post_parse_logs, session_logs, use_cli_requested,
        resolved_use_cli, check_harlequin_installed, py_truthy, hcl,
        List.countP_append, List.countP_cons, handler_msg]

/-- C7 witness: the theorem applied to the concrete S3 URI
`s3://bucket/key.csv` with no profile. -/
theorem claim_C7_witness :
    ("CALL load_aws_credentials('" ++ "work" ++ "');")
      ∉ create_duckdb_init_script_list true "s3://bucket/key.csv" "csv"
        (resolved_use_cli UI.cli true) none ∧
    (main_run "s3://bucket/key.csv" "csv" none UI.cli
      ⟨true, none, none, "/tmp/init.sql"⟩).logs.countP
      (fun r => r.level == LogLevel.warning && r.msg ==
        "S3 URI detected but no AWS profile specified. Using default credentials.") = 1 :=
  ⟨(claim_C7_default_credentials "s3://bucket/key.csv" "csv" "/tmp/init.sql" UI.cli true
      none none (by decide)).1 "work",
    (claim_C7_default_credentials "s3://bucket/key.csv" "csv" "/tmp/init.sql" UI.cli true
      none none (by decide)).2⟩

/-- C8 counterexample: the builder is NOT raise-free: at the
bracket-unbalanced path `s3://[` the `is_s3_uri` call of line 76 raises
`ValueError` inside `create_duckdb_init_script`, which propagates, and no
script is produced. -/
theorem claim_C8_counterexample :
    create_duckdb_init_script "s3://[" "csv" true none = PyResult.raises ∧
    create_duckdb_init_script "s3://[abc" "parquet" false (some "work") =
      PyResult.raises := by
  decide

/-- C8 (amended): for every file path the URL parser accepts, the raw
reference string and the profile name are embedded verbatim, character for
character, with no escaping or validation: the table-load statement is
exactly the fixed template with `file_path` substituted, and for a truthy
profile the credential statement is exactly the template with the profile
substituted.  The builder raises only the `ValueError` propagated from
`urlparse` on paths the parser rejects. -/
theorem claim_C8_verbatim (fp ft : String) (cli : Bool) (pr : Option String)
    (s3 : Bool) (h : is_s3_uri fp = PyResult.ok s3) :
    create_duckdb_init_script fp ft cli pr =
      PyResult.ok (String.intercalate "\n"
        (create_duckdb_init_script_list s3 fp ft cli pr)) ∧
    table_stmt ft fp ∈ create_duckdb_init_script_list s3 fp ft cli pr ∧
    table_stmt ft fp = "CREATE OR REPLACE TABLE data AS SELECT * FROM "
      ++ read_function ft ++ "('" ++ fp ++ "');" ∧
    (∀ p : String, p ≠ "" →
      ("CALL load_aws_credentials('" ++ p ++ "');")
        ∈ create_duckdb_init_script_list true fp ft cli (some p)) := by
  refine ⟨by simp [create_duckdb_init_script, h], ?_, rfl, ?_⟩
  · rw [create_script_list_decomp]
    cases s3 <;> cases cli <;> simp
  · intro p hp
    have hb : (p == "") = false := beq_eq_false_iff_ne.mpr hp
    rw [create_script_list_decomp]
    simp [credential_elem, py_truthy, hb]

/-- C8 witness: a path containing an embedded quote passes through verbatim
(the generated statement is the raw template instance), and a concrete profile
name is interpolated verbatim for an S3 source. -/
theorem claim_C8_witness :
    table_stmt "csv" "a') DROP" ∈
      create_duckdb_init_script_list false "a') DROP" "csv" true none ∧
    ("CALL load_aws_credentials('" ++ "work" ++ "');")
      ∈ create_duckdb_init_script_list true "s3://bucket/key.csv" "csv" true
        (some "work") :=
  ⟨(claim_C8_verbatim "a') DROP" "csv" true none false (by decide)).2.1,
    (claim_C8_verbatim "s3://bucket/key.csv" "csv" true (some "work") true
      (by decide)).2.2.2 "work" (by decide)⟩

/-- C9: the script builder is deterministic: two calls with equal arguments
produce byte-identical script text (and identical raising behaviour). -/
theorem claim_C9_deterministic (fp1 ft1 fp2 ft2 : String) (c1 c2 : Bool)
    (p1 p2 : Option String) (hfp : fp1 = fp2) (hft : ft1 = ft2) (hc : c1 = c2)
    (hp : p1 = p2) :
    create_duckdb_init_script fp1 ft1 c1 p1 = create_duckdb_init_script fp2 ft2 c2 p2 := by
  rw [hfp, hft, hc, hp]

/-- C9 witness: determinism at a concrete input. -/
theorem claim_C9_witness :
    create_duckdb_init_script "s3://b/k.csv" "parquet" true (some "work") =
      create_duckdb_init_script "s3://b/k.csv" "parquet" true (some "work") :=
  claim_C9_deterministic "s3://b/k.csv" "parquet" "s3://b/k.csv" "parquet"
    true true (some "work") (some "work") rfl rfl rfl rfl

/-- C10: for every S3 source the parser accepts, given without a (truthy)
profile, the builder appends the empty string as the third list element, so
the newline-joined script has a blank line between `LOAD aws;` and the
table-load statement. -/
theorem claim_C10_blank_line (fp ft : String) (cli : Bool) (pr : Option String)
    (h : is_s3_uri fp = PyResult.ok true) (hp : py_truthy pr = false) :
    (create_duckdb_init_script_list true fp ft cli pr).get? 2 = some "" ∧
    ∃ rest : String,
      create_duckdb_init_script fp ft cli pr =
        PyResult.ok ("INSTALL aws;\nLOAD aws;\n\n" ++ table_stmt ft fp ++ rest) := by
  have hce : credential_elem pr = "" := by simp [credential_elem, hp]
  have hlist : create_duckdb_init_script_list true fp ft cli pr =
      "INSTALL aws;" :: "LOAD aws;" :: "" :: table_stmt ft fp ::
        ((if cli then [".mode duckbox", ".echo on"] else [])
          ++ ["PRAGMA table_info('data');"]) := by
    rw [create_script_list_decomp, hce]
    simp
  constructor
  · rw [hlist]; rfl
  · refine ⟨sepJoin "\n" ((if cli then [".mode duckbox", ".echo on"] else [])
      ++ ["PRAGMA table_info('data');"]), ?_⟩
    simp only [create_duckdb_init_script, h]
    refine congrArg PyResult.ok ?_
    rw [hlist, intercalate_cons]
    simp only [sepJoin]
    apply String.ext
    simp only [String.data_append]
    simp only [← List.append_assoc]
    congr 1

/-- C10 witness: the blank line at the concrete S3 URI `s3://bucket/key.csv`
with no profile. -/
theorem claim_C10_witness :
    (create_duckdb_init_script_list true "s3://bucket/key.csv" "csv" true none).get? 2
      = some "" ∧
    ∃ rest : String,
      create_duckdb_init_script "s3://bucket/key.csv" "csv" true none =
        PyResult.ok ("INSTALL aws;\nLOAD aws;\n\n"
          ++ table_stmt "csv" "s3://bucket/key.csv" ++ rest) :=
  claim_C10_blank_line "s3://bucket/key.csv" "csv" true none (by decide) (by decide)
